import Mathlib

set_option maxRecDepth 20000

/-!
Verification of the dual-calendar date engine in
`src/app/bs-date-picker.tsx` (BSDatePicker component).

The engine's own logic (month navigation, day selection, formatting,
numeral transcoding, cross-calendar range labels) is embedded directly
from the TypeScript source.  The external collaborators that the spec
declares out of scope — the `nepali-date-converter` oracle (BS<->AD
conversion, BS month lengths, string parsing) and the ECMAScript `Date`
built-ins — are modelled explicitly; each such definition carries a doc
comment saying so.
-/

/-- Language prop of the component: selects the primary calendar. -/
inductive Lang where
  | np
  | en
deriving DecidableEq, Repr

/-- The closed `DateFormat` union type of the source (ten literal templates). -/
inductive DateFormat where
  | yyyySlash   -- "YYYY/MM/DD"
  | ddSlash     -- "DD/MM/YYYY"
  | mmSlash     -- "MM/DD/YYYY"
  | yyyyDash    -- "YYYY-MM-DD"
  | mmDash      -- "MM-DD-YYYY"
  | ddDash      -- "DD-MM-YYYY"
  | mmmComma    -- "MMM DD, YYYY"
  | ddMmm       -- "DD MMM YYYY"
  | mmmmComma   -- "MMMM DD, YYYY"
  | ddth        -- "DDth MMMM, YYYY"
deriving DecidableEq, Repr

/-- A `NepaliDate` value of the external library: BS year, 0-indexed BS
month, BS day (calendar components only). -/
structure BSDate where
  year : Int
  month : Int
  day : Int
deriving DecidableEq, Repr

/-- A JavaScript `Date` value restricted to its calendar components:
Gregorian year, 0-indexed month, day of month. -/
structure GDate where
  year : Int
  month : Int
  day : Int
deriving DecidableEq, Repr

/-- `MONTH_NAMES.en` table from the source. -/
def MONTH_NAMES_en : List String :=
  ["January", "February", "March", "April", "May", "June", "July",
   "August", "September", "October", "November", "December"]

/-- `MONTH_NAMES.np` table from the source. -/
def MONTH_NAMES_np : List String :=
  ["बैशाख", "जेठ", "असार", "सावन", "भदौ", "असोज",
   "कार्तिक", "मंसिर", "पौष", "माघ", "फागुन", "चैत"]

/-- Modelled from the spec: the en-US short month names produced by the
ECMAScript `toLocaleDateString` with a short month option; this i18n
table lives in the JS runtime, not in src/. -/
def SHORT_MONTH_NAMES_en : List String :=
  ["Jan", "Feb", "Mar", "Apr", "May", "Jun", "Jul",
   "Aug", "Sep", "Oct", "Nov", "Dec"]

/-- `NEPALI_NUMERALS` table from the source. -/
def NEPALI_NUMERALS : List String :=
  ["०", "१", "२", "३", "४", "५", "६", "७", "८", "९"]

/-- Standard Gregorian leap-year test (the ECMAScript `Date` rule). -/
def isLeapYear (y : Int) : Prop :=
  y % 4 = 0 ∧ (y % 100 ≠ 0 ∨ y % 400 = 0)

instance (y : Int) : Decidable (isLeapYear y) := by
  unfold isLeapYear; infer_instance

/-- Modelled from the spec: Gregorian days-in-month as implemented by the
ECMAScript `Date` built-in (28/29 for February by the leap test, else
30/31 per month).  The month argument is 0-indexed and assumed
normalized into 0..11. -/
def gDaysInMonth (y m : Int) : Int :=
  match m.toNat with
  | 0 => 31 | 1 => if isLeapYear y then 29 else 28 | 2 => 31
  | 3 => 30 | 4 => 31 | 5 => 30 | 6 => 31 | 7 => 31
  | 8 => 30 | 9 => 31 | 10 => 30 | 11 => 31
  | _ => 31

/-- Modelled from the spec: the oracle's `daysInBsMonth` (the
`nepali-date-converter` lookup table), reconstructed for BS year 2081 —
the year exercised by the repository's own example values — from the
publicly known correspondences that the repository exhibits
(2081-09-17 BS = 2025-01-01 AD; Baishakh 1, 2081 = April 13, 2024;
Magh 1, 2081 = January 14, 2025; Baishakh 1, 2082 = April 14, 2025).
Years outside the reconstructed window use a nominal 30-day month; no
theorem below evaluates the table outside 2081.  Month 0-indexed. -/
def daysInBsMonth (y m : Int) : Int :=
  if y = 2081 then
    match m.toNat with
    | 0 => 31 | 1 => 32 | 2 => 31 | 3 => 32 | 4 => 31 | 5 => 30
    | 6 => 30 | 7 => 30 | 8 => 29 | 9 => 30 | 10 => 30 | 11 => 30
    | _ => 30
  else 30

/-- Day-overflow normalization shared by the two date constructors:
borrow from the previous month while the day is below 1, carry into the
next month while it exceeds the month length.  `len` is the
days-in-month table of the calendar; `fuel` bounds the recursion (every
engine call site needs at most two steps). -/
def normDay (len : Int → Int → Int) : Nat → Int → Int → Int → Int × Int × Int
  | 0, y, m, d => (y, m, d)
  | fuel + 1, y, m, d =>
    if d < 1 then
      let y2 := if m = 0 then y - 1 else y
      let m2 := if m = 0 then 11 else m - 1
      normDay len fuel y2 m2 (d + len y2 m2)
    else if d > len y m then
      let y2 := if m = 11 then y + 1 else y
      let m2 := if m = 11 then 0 else m + 1
      normDay len fuel y2 m2 (d - len y m)
    else (y, m, d)

/-- Month normalization used by both constructors: fold the (possibly
out-of-range) 0-indexed month into the year.  Euclidean division by the
positive constant 12 coincides with floor division. -/
def normYM (y m : Int) : Int × Int :=
  (y + m / 12, m % 12)

/-- Modelled from the spec: the ECMAScript `new Date(y, m, d)`
constructor (calendar part): normalize the month into the year, then
resolve day overflow/underflow against the Gregorian month lengths. -/
def mkGDate (y m d : Int) : GDate :=
  let ym := normYM y m
  let t := normDay gDaysInMonth (d.natAbs + 4) ym.1 ym.2 d
  ⟨t.1, t.2.1, t.2.2⟩

/-- Modelled from the spec: the `new NepaliDate(y, m, d)` constructor of
the oracle library, which the source relies on to behave like `Date`
(it probes month lengths with `new NepaliDate(y, m + 1, 0)`). -/
def mkBSDate (y m d : Int) : BSDate :=
  let ym := normYM y m
  let t := normDay daysInBsMonth (d.natAbs + 4) ym.1 ym.2 d
  ⟨t.1, t.2.1, t.2.2⟩

/-! ### Modelled calendar conversions (the oracle)

Dates in both calendars are put on a common day-serial scale whose zero
is 2024-01-01 AD, and conversion walks day by day from a fixed base
date.  The BS scale is pinned by the anchor correspondence
Baishakh 1, 2081 BS = April 13, 2024 AD (serial 103), which together
with the 2081 month-length row reproduces the correspondence the
repository's examples rely on (2081-09-17 BS = 2025-01-01 AD). -/

/-- Days in a Gregorian year. -/
def gYearLen (y : Int) : Int :=
  if isLeapYear y then 366 else 365

/-- Sum of `gYearLen` over `n` consecutive years starting at `y`. -/
def gYearsSum (y : Int) : Nat → Int
  | 0 => 0
  | n + 1 => gYearLen y + gYearsSum (y + 1) n

/-- Serial offset of January 1 of year `y` relative to 2024-01-01. -/
def gDaysFromYear (y : Int) : Int :=
  if 2024 ≤ y then gYearsSum 2024 (y - 2024).toNat
  else -gYearsSum y (2024 - y).toNat

/-- Sum of Gregorian month lengths of year `y` over months `0..n-1`. -/
def gMonthsSum (y : Int) : Nat → Int
  | 0 => 0
  | n + 1 => gMonthsSum y n + gDaysInMonth y n

/-- Day serial of a (normalized) Gregorian date, zero at 2024-01-01. -/
def adSerial (g : GDate) : Int :=
  gDaysFromYear g.year + gMonthsSum g.year g.month.toNat + (g.day - 1)

/-- Next calendar day in the Gregorian calendar. -/
def adSucc (g : GDate) : GDate :=
  if g.day < gDaysInMonth g.year g.month then ⟨g.year, g.month, g.day + 1⟩
  else if g.month = 11 then ⟨g.year + 1, 0, 1⟩
  else ⟨g.year, g.month + 1, 1⟩

/-- Iterated `adSucc`. -/
def adAddDays (g : GDate) : Nat → GDate
  | 0 => g
  | n + 1 => adSucc (adAddDays g n)

/-- Gregorian date of a day serial, walking forward from December 1,
2024 (serial 335); valid for serials at or after that base, which
covers every date the theorems below evaluate. -/
def adFromSerial (s : Int) : GDate :=
  adAddDays ⟨2024, 11, 1⟩ (s - 335).toNat

/-- Days in a BS year per the modelled table. -/
def bsYearLen (y : Int) : Int :=
  (List.range 12).foldl (fun acc m => acc + daysInBsMonth y m) 0

/-- Sum of `bsYearLen` over `n` consecutive BS years starting at `y`. -/
def bsYearsSum (y : Int) : Nat → Int
  | 0 => 0
  | n + 1 => bsYearLen y + bsYearsSum (y + 1) n

/-- Serial offset of Baishakh 1 of BS year `y` relative to Baishakh 1,
2081 (which sits at serial 103 = April 13, 2024). -/
def bsDaysFromYear (y : Int) : Int :=
  if 2081 ≤ y then bsYearsSum 2081 (y - 2081).toNat
  else -bsYearsSum y (2081 - y).toNat

/-- Sum of BS month lengths of year `y` over months `0..n-1`. -/
def bsMonthsSum (y : Int) : Nat → Int
  | 0 => 0
  | n + 1 => bsMonthsSum y n + daysInBsMonth y n

/-- Day serial of a (normalized) BS date on the common scale. -/
def bsSerialOf (b : BSDate) : Int :=
  103 + bsDaysFromYear b.year + bsMonthsSum b.year b.month.toNat + (b.day - 1)

/-- Next calendar day in the BS calendar per the modelled table. -/
def bsSucc (b : BSDate) : BSDate :=
  if b.day < daysInBsMonth b.year b.month then ⟨b.year, b.month, b.day + 1⟩
  else if b.month = 11 then ⟨b.year + 1, 0, 1⟩
  else ⟨b.year, b.month + 1, 1⟩

/-- Iterated `bsSucc`. -/
def bsAddDays (b : BSDate) : Nat → BSDate
  | 0 => b
  | n + 1 => bsSucc (bsAddDays b n)

/-- BS date of a day serial, walking forward from Poush 1, 2081
(serial 350 = December 16, 2024); valid for serials at or after that
base, which covers every date the theorems below evaluate. -/
def bsFromSerial (s : Int) : BSDate :=
  bsAddDays ⟨2081, 8, 1⟩ (s - 350).toNat

/-- Modelled from the spec: the oracle's `bsToAd` conversion
(`NepaliDate.toJsDate()` in the source), via the common day serial. -/
def bsToAd (b : BSDate) : GDate :=
  adFromSerial (bsSerialOf b)

/-- Modelled from the spec: the oracle's `adToBs` conversion
(`new NepaliDate(jsDate)` in the source), via the common day serial. -/
def adToBs (g : GDate) : BSDate :=
  bsFromSerial (adSerial g)

/-! ### Formatting (Formatter and NumeralTranscoder) -/

/-- The JavaScript `String.prototype.padStart(n, c)` operation: left-pad
with `c` up to length `n` (every character involved here is a single
code unit, so code-unit and character counts agree). -/
def padStart (s : String) (n : Nat) (c : Char) : String :=
  if s.length < n then String.mk (List.replicate (n - s.length) c) ++ s
  else s

/-- `toNepaliNumeral` from the source: decimal-render the number and map
each ASCII digit through the `NEPALI_NUMERALS` table.  (For a non-digit
character the source would index the table with `NaN`, yielding the
JavaScript `undefined`; the engine only ever passes nonnegative
integers, so that path is represented by the literal "undefined".) -/
def toNepaliNumeral (num : Int) : String :=
  String.join ((toString num).toList.map fun ch =>
    if ch.isDigit then NEPALI_NUMERALS.getD (ch.toNat - 48) "undefined"
    else "undefined")

/-- JavaScript array indexing with an `Int` index: out-of-bounds or
negative indices give `undefined`, modelled as `none`. -/
def jsIdx (l : List String) (i : Int) : Option String :=
  if i < 0 then none else l.get? i.toNat

/-- `getOrdinalSuffix` from the source:
`suffixes[(v - 20) % 10] || suffixes[v] || suffixes[0]` with
`v = day % 100`, where `%` is the JavaScript truncating remainder and
`||` falls through on `undefined` (all table entries are non-empty, so
truthiness is definedness here). -/
def getOrdinalSuffix (day : Int) : String :=
  let suffixes := ["th", "st", "nd", "rd"]
  let v := day.tmod 100
  ((jsIdx suffixes ((v - 20).tmod 10)).orElse fun _ =>
    jsIdx suffixes v).getD "th"

/-- `formatGregorianDate` from the source.  The three `toLocaleDateString`
templates are modelled from the spec: the en-US locale renders all three
option sets in the order "Mon DD, YYYY", so the "DD MMM YYYY" entry also
comes out month-first. -/
def formatGregorianDate (date : GDate) (format : DateFormat) : String :=
  let month := padStart (toString (date.month + 1)) 2 '0'
  let day := padStart (toString date.day) 2 '0'
  let year := toString date.year
  let shortName := SHORT_MONTH_NAMES_en.getD date.month.toNat "undefined"
  let longName := MONTH_NAMES_en.getD date.month.toNat "undefined"
  match format with
  | .mmSlash => s!"{month}/{day}/{year}"
  | .ddSlash => s!"{day}/{month}/{year}"
  | .yyyySlash => s!"{year}/{month}/{day}"
  | .yyyyDash => s!"{year}-{month}-{day}"
  | .mmDash => s!"{month}-{day}-{year}"
  | .ddDash => s!"{day}-{month}-{year}"
  | .mmmComma => s!"{shortName} {day}, {year}"
  | .ddMmm => s!"{shortName} {day}, {year}"
  | .mmmmComma => s!"{longName} {day}, {year}"
  | .ddth =>
    let dayNum := toString date.day
    let suffix := getOrdinalSuffix date.day
    s!"{dayNum}{suffix} {longName}, {year}"

/-- `formatNepaliDate` from the source.  Note the `month` argument is the
0-indexed month and is rendered as-is in the numeric templates. -/
def formatNepaliDate (year month day : Int) (format : DateFormat) : String :=
  let nepaliYear := padStart (toNepaliNumeral year) 2 '०'
  let nepaliMonth := padStart (toNepaliNumeral month) 2 '०'
  let nepaliDay := padStart (toNepaliNumeral day) 2 '०'
  let monthName := MONTH_NAMES_np.getD month.toNat "undefined"
  let suffix := getOrdinalSuffix day
  let ordinalDay := s!"{nepaliDay}{suffix}"
  match format with
  | .yyyySlash => s!"{nepaliYear}/{nepaliMonth}/{nepaliDay}"
  | .ddSlash => s!"{nepaliDay}/{nepaliMonth}/{nepaliYear}"
  | .mmSlash => s!"{nepaliMonth}/{nepaliDay}/{nepaliYear}"
  | .yyyyDash => s!"{nepaliYear}-{nepaliMonth}-{nepaliDay}"
  | .mmDash => s!"{nepaliMonth}-{nepaliDay}-{nepaliYear}"
  | .ddDash => s!"{nepaliDay}-{nepaliMonth}-{nepaliYear}"
  | .mmmComma => s!"{monthName} {nepaliDay}, {nepaliYear}"
  | .ddMmm => s!"{nepaliDay} {monthName} {nepaliYear}"
  | .mmmmComma => s!"{monthName} {nepaliDay}, {nepaliYear}"
  | .ddth => s!"{ordinalDay} {monthName}, {nepaliYear}"

/-- The `selectedDate` state value: a `NepaliDate` or a JavaScript
`Date` object (the component stores the primary calendar's object). -/
inductive SelDate where
  | bs (b : BSDate)
  | ad (g : GDate)
deriving DecidableEq, Repr

/-- `formatDate` from the source.  A null date yields the empty string.
In the `np` branch the source takes the year through a conversion when
needed but reads month and day off the original object unchanged. -/
def formatDate (date : Option SelDate) (lang : Lang) (format : DateFormat) :
    String :=
  match date with
  | none => ""
  | some d =>
    match lang with
    | .en =>
      let jsDate := match d with
        | .ad g => g
        | .bs b => bsToAd b
      formatGregorianDate jsDate format
    | .np =>
      let nepaliYear := match d with
        | .bs b => b.year
        | .ad g => (adToBs g).year
      let nepaliMonth := match d with
        | .bs b => b.month
        | .ad g => g.month
      let nepaliDay := match d with
        | .bs b => b.day
        | .ad g => g.day
      formatNepaliDate nepaliYear nepaliMonth nepaliDay format

/-! ### Component state, parsing and initialization (MonthCursor) -/

/-- The `currentMonth` state value: both calendars' current objects. -/
structure CurrentMonth where
  nepali : BSDate
  gregorian : GDate
deriving DecidableEq, Repr

/-- The component's state tuple (the `language` prop is carried along
with the `useState` values; `format` is passed where needed). -/
structure State where
  language : Lang
  selectedDate : Option SelDate
  currentMonth : CurrentMonth
  isOpen : Bool
deriving DecidableEq, Repr

/-- Errors thrown during construction. -/
inductive InitError where
  | invalidDateString
  | unsupportedEra
deriving DecidableEq, Repr

/-- Split a character list at every dash (the Y-M-D separator used by
both external parsers). -/
def splitOnDash : List Char -> List (List Char)
  | [] => [[]]
  | c :: rest =>
    match splitOnDash rest, decide (c = '-') with
    | r, true => [] :: r
    | [], false => [[c]]
    | h :: t, false => (c :: h) :: t

/-- Read a nonempty all-digit character list as a number. -/
def parseNatChars (cs : List Char) : Option Nat :=
  match cs with
  | [] => none
  | _ =>
    cs.foldl (fun acc c =>
      acc.bind fun n =>
        if c.isDigit then some (10 * n + (c.toNat - 48)) else none)
      (some 0)

/-- Modelled from the spec: the `nepali-date-converter` string parser
used by `new NepaliDate(defaultValue)`; per the spec it accepts exactly
a Y-M-D string of three integers in range (year within the oracle's
supported era, month 1..12, day within the month) and throws
`InvalidDateString` otherwise.  The month is 1-indexed in the string
and 0-indexed in the resulting object. -/
def parseNepaliDateString (s : String) : Except InitError BSDate :=
  match (splitOnDash s.toList).map parseNatChars with
  | [some y, some m, some d] =>
    if 2000 ≤ y ∧ y ≤ 2090 ∧ 1 ≤ m ∧ m ≤ 12 ∧ 1 ≤ d ∧
        (d : Int) ≤ daysInBsMonth y ((m : Int) - 1) then
      .ok ⟨y, (m : Int) - 1, d⟩
    else .error .invalidDateString
  | _ => .error .invalidDateString

/-- Modelled from the spec: ECMAScript `new Date(string)` on a
"YYYY-MM-DD"-shaped string; an unparseable or out-of-range string
produces the Invalid Date sentinel (`none`) and never throws. -/
def jsDateParse (s : String) : Option GDate :=
  match (splitOnDash s.toList).map parseNatChars with
  | [some y, some m, some d] =>
    if 1 ≤ m ∧ m ≤ 12 ∧ 1 ≤ d ∧ (d : Int) ≤ gDaysInMonth y ((m : Int) - 1) then
      some ⟨y, (m : Int) - 1, d⟩
    else none
  | _ => none

/-- Modelled from the spec: `new NepaliDate(jsDate)`; per the spec the
oracle must report (not silently absorb) a date it cannot represent, so
an Invalid Date input is an error. -/
def nepaliFromJsDate (g : Option GDate) : Except InitError BSDate :=
  match g with
  | some g => .ok (adToBs g)
  | none => .error .unsupportedEra

/-- Modelled from the spec: the oracle's `now()`, a fixed current date
(its value is irrelevant to every claim; the `defaultValue` branch never
reaches it). -/
def nowPair : CurrentMonth :=
  ⟨⟨2081, 8, 17⟩, bsToAd ⟨2081, 8, 17⟩⟩

/-- The component's state initializers (source lines 93-122), in their
evaluation order: the `selectedDate` initializer runs first, then the
`currentMonth` initializer.  Note that with a `defaultValue` the
`currentMonth` initializer parses the value as a Nepali date string for
both languages (line 106), and for `en` feeds the possibly-invalid
JavaScript date into the oracle (line 110). -/
def init (defaultValue : Option String) (language : Lang) :
    Except InitError State :=
  match defaultValue with
  | some v =>
    match language with
    | .np => do
      -- line 96: selectedDate = new NepaliDate(defaultValue)
      let sel ← parseNepaliDateString v
      -- line 106: the same parse inside the currentMonth initializer
      let nepaliDate ← parseNepaliDateString v
      .ok { language := .np, selectedDate := some (.bs sel),
            currentMonth :=
              { nepali := nepaliDate, gregorian := bsToAd nepaliDate },
            isOpen := false }
    | .en => do
      -- line 97: selectedDate = new Date(defaultValue), no throw
      let sel := jsDateParse v
      -- line 106: new NepaliDate(defaultValue), throws on parse failure
      let _nepaliDate ← parseNepaliDateString v
      -- line 107/110: gregorianDate and new NepaliDate(gregorianDate)
      let nepali ← nepaliFromJsDate (jsDateParse v)
      match sel with
      | some g =>
        .ok { language := .en, selectedDate := some (.ad g),
              currentMonth := { nepali := nepali, gregorian := g },
              isOpen := false }
      | none => .error .unsupportedEra
  | none =>
    -- no defaultValue: both branches use the oracle's now()
    match language with
    | .np =>
      .ok { language := .np, selectedDate := none,
            currentMonth := nowPair, isOpen := false }
    | .en =>
      .ok { language := .en, selectedDate := none,
            currentMonth := nowPair, isOpen := false }

/-! ### Day selection and month navigation -/

/-- The payload handed to `onDateChange`. -/
structure DatePayload where
  english : String
  nepali : String
deriving DecidableEq, Repr

/-- Result of `handleDateSelect`: the new state plus the payload given
to the `onDateChange` callback. -/
structure SelectResult where
  newState : State
  onDateChange : DatePayload
deriving DecidableEq, Repr

/-- `handleDateSelect` from the source: build the new day in each
calendar by pairing the clicked day number with that calendar's own
current-month fields (no conversion between the calendars), store the
primary one as the selection, fire the callback and close the popover. -/
def handleDateSelect (format : DateFormat) (st : State) (day : Int) :
    SelectResult :=
  let newNepaliDate :=
    mkBSDate st.currentMonth.nepali.year st.currentMonth.nepali.month day
  let newGregorianDate :=
    mkGDate st.currentMonth.gregorian.year st.currentMonth.gregorian.month day
  { newState :=
      { st with
        selectedDate := some (match st.language with
          | .np => .bs newNepaliDate
          | .en => .ad newGregorianDate),
        isOpen := false },
    onDateChange :=
      { english := formatDate (some (.ad newGregorianDate)) .en format,
        nepali := formatDate (some (.bs newNepaliDate)) .np format } }

/-- The `currentDay` computation inside `handleMonthChange`: the
selected day (`getDate()` of whichever object is stored), or 1 when
nothing is selected. -/
def currentDayOf (st : State) : Int :=
  match st.selectedDate with
  | some (.bs b) => b.day
  | some (.ad g) => g.day
  | none => 1

/-- `handleMonthChange` from the source: normalize the BS anchor month
through the explicit if-chain, advance the Gregorian anchor through the
`Date` constructor, clamp the previously selected day to each new
month's length, and store the clamped dates as both the new anchors and
the new selection (the primary one). -/
def handleMonthChange (st : State) (increment : Int) : State :=
  let prevMonth := st.currentMonth
  let newNepaliYear0 := prevMonth.nepali.year
  let newNepaliMonth0 := prevMonth.nepali.month + increment
  let newNepaliYear :=
    if newNepaliMonth0 > 11 then newNepaliYear0 + newNepaliMonth0.fdiv 12
    else if newNepaliMonth0 < 0 then newNepaliYear0 + newNepaliMonth0.fdiv 12
    else newNepaliYear0
  let newNepaliMonth :=
    if newNepaliMonth0 > 11 then newNepaliMonth0.tmod 12
    else if newNepaliMonth0 < 0 then ((newNepaliMonth0.tmod 12) + 12).tmod 12
    else newNepaliMonth0
  let currentDay := currentDayOf st
  let maxNepaliDay := (mkBSDate newNepaliYear (newNepaliMonth + 1) 0).day
  let newGregorianDate :=
    mkGDate prevMonth.gregorian.year (prevMonth.gregorian.month + increment) 1
  let maxGregorianDay :=
    (mkGDate newGregorianDate.year (newGregorianDate.month + 1) 0).day
  let adjustedNepaliDay := min currentDay maxNepaliDay
  let adjustedGregorianDay := min currentDay maxGregorianDay
  let updatedNepaliDate := mkBSDate newNepaliYear newNepaliMonth adjustedNepaliDay
  let updatedGregorianDate :=
    mkGDate newGregorianDate.year newGregorianDate.month adjustedGregorianDay
  { st with
    selectedDate := some (match st.language with
      | .np => .bs updatedNepaliDate
      | .en => .ad updatedGregorianDate),
    currentMonth :=
      { nepali := updatedNepaliDate, gregorian := updatedGregorianDate } }

/-! ### RangeLabeler -/

/-- `getGregorianMonthRange` from the source: convert the first and the
last concrete day of the BS anchor month (the last probed with
`new NepaliDate(y, m + 1, 0)`) to Gregorian, compare short month names. -/
def getGregorianMonthRange (nepaliMonth : BSDate) : String :=
  let firstDay := mkBSDate nepaliMonth.year nepaliMonth.month 1
  let lastDay := mkBSDate nepaliMonth.year (nepaliMonth.month + 1) 0
  let firstGregorianMonth :=
    SHORT_MONTH_NAMES_en.getD (bsToAd firstDay).month.toNat "undefined"
  let lastGregorianMonth :=
    SHORT_MONTH_NAMES_en.getD (bsToAd lastDay).month.toNat "undefined"
  if firstGregorianMonth = lastGregorianMonth then firstGregorianMonth
  else s!"{firstGregorianMonth}/{lastGregorianMonth}"

/-- `getGregorianYearRange` from the source. -/
def getGregorianYearRange (nepaliMonth : BSDate) : String :=
  let firstDay := mkBSDate nepaliMonth.year nepaliMonth.month 1
  let lastDay := mkBSDate nepaliMonth.year (nepaliMonth.month + 1) 0
  let firstGregorianYear := (bsToAd firstDay).year
  let lastGregorianYear := (bsToAd lastDay).year
  if firstGregorianYear = lastGregorianYear then toString firstGregorianYear
  else s!"{firstGregorianYear}-{lastGregorianYear}"

/-- `getNepaliMonthRange` from the source: despite its role (labelling
the BS span of the displayed Gregorian month), it receives the
independently tracked BS anchor and probes `new NepaliDate(y, m, 1)` and
`new NepaliDate(y, m + 2, 0)` — it performs no conversion of any
Gregorian day. -/
def getNepaliMonthRange (date : BSDate) : String :=
  let firstDay := mkBSDate date.year date.month 1
  let lastDay := mkBSDate date.year (date.month + 2) 0
  let firstNepaliMonth := MONTH_NAMES_np.getD firstDay.month.toNat "undefined"
  let lastNepaliMonth := MONTH_NAMES_np.getD lastDay.month.toNat "undefined"
  if firstNepaliMonth = lastNepaliMonth then firstNepaliMonth
  else s!"{firstNepaliMonth}/{lastNepaliMonth}"

/-- `getNepaliYearRange` from the source (same probe pattern). -/
def getNepaliYearRange (date : BSDate) : String :=
  let firstDay := mkBSDate date.year date.month 1
  let lastDay := mkBSDate date.year (date.month + 2) 0
  let firstNepaliYear := toNepaliNumeral firstDay.year
  let lastNepaliYear := toNepaliNumeral lastDay.year
  if firstDay.year = lastDay.year then firstNepaliYear
  else s!"{firstNepaliYear}-{lastNepaliYear}"

/-- The `Input` value expression of the render (source lines 448-455):
the formatted selection, or the empty string when nothing is selected. -/
def inputValue (st : State) (format : DateFormat) : String :=
  match st.selectedDate with
  | some d => formatDate (some d) st.language format
  | none => ""

/-! ### Spec-side definitions

These restate rules in the words of the specification, for comparison
with the definitions embedded from the source. -/

/-- The spec's ordinal-suffix rule: day % 100 in 11..13 gives "th",
else by day % 10 (1 st, 2 nd, 3 rd, otherwise th). -/
def ordinalSpec (day : Int) : String :=
  let v := day % 100
  if v = 11 ∨ v = 12 ∨ v = 13 then "th"
  else if day % 10 = 1 then "st"
  else if day % 10 = 2 then "nd"
  else if day % 10 = 3 then "rd"
  else "th"

/-- The spec's rule for the Gregorian month label of a BS anchor month:
convert day 1 and day `daysInBsMonth` of the anchor month through the
oracle and join the short month names. -/
def gregorianMonthRangeSpec (y m : Int) : String :=
  let first := bsToAd ⟨y, m, 1⟩
  let last := bsToAd ⟨y, m, daysInBsMonth y m⟩
  let a := SHORT_MONTH_NAMES_en.getD first.month.toNat "undefined"
  let b := SHORT_MONTH_NAMES_en.getD last.month.toNat "undefined"
  if a = b then a else s!"{a}/{b}"

/-- The spec's rule for the Gregorian year label of a BS anchor month. -/
def gregorianYearRangeSpec (y m : Int) : String :=
  let first := bsToAd ⟨y, m, 1⟩
  let last := bsToAd ⟨y, m, daysInBsMonth y m⟩
  let a := toString first.year
  let b := toString last.year
  if first.year = last.year then a
  else s!"{a}-{b}"

/-- The spec's rule for the BS month label of a Gregorian anchor month:
convert day 1 and day `gDaysInMonth` of the anchor month through the
oracle and join the Nepali month names. -/
def nepaliMonthRangeSpec (y m : Int) : String :=
  let first := adToBs ⟨y, m, 1⟩
  let last := adToBs ⟨y, m, gDaysInMonth y m⟩
  let a := MONTH_NAMES_np.getD first.month.toNat "undefined"
  let b := MONTH_NAMES_np.getD last.month.toNat "undefined"
  if a = b then a else s!"{a}/{b}"

/-- Well-formedness of a cursor state: both anchor months are in 0..11
and the effective selected day is at least 1 (true of every state the
component constructs). -/
def WFState (st : State) : Prop :=
  0 ≤ st.currentMonth.nepali.month ∧ st.currentMonth.nepali.month ≤ 11 ∧
  0 ≤ st.currentMonth.gregorian.month ∧
  st.currentMonth.gregorian.month ≤ 11 ∧
  1 ≤ currentDayOf st

instance (st : State) : Decidable (WFState st) := by
  unfold WFState; infer_instance

/-! ### Lemmas about the calendar tables and date constructors -/

theorem bs_len_lb (y m : Int) : 29 ≤ daysInBsMonth y m := by
  unfold daysInBsMonth
  split
  · split <;> norm_num
  · norm_num

theorem g_len_lb (y m : Int) : 28 ≤ gDaysInMonth y m := by
  unfold gDaysInMonth
  split <;> try norm_num
  split <;> norm_num

theorem normDay_of_range (len : Int → Int → Int) (f : Nat) (y m d : Int)
    (h1 : 1 ≤ d) (h2 : d ≤ len y m) : normDay len f y m d = (y, m, d) := by
  cases f with
  | zero => rfl
  | succ f =>
    unfold normDay
    rw [if_neg (by omega), if_neg (by omega)]

theorem normDay_day_zero (len : Int → Int → Int) (hlen : ∀ a b, 1 ≤ len a b)
    (f : Nat) (y m : Int) :
    normDay len (f + 1) y m 0 =
      ((if m = 0 then y - 1 else y), (if m = 0 then 11 else m - 1),
        len (if m = 0 then y - 1 else y) (if m = 0 then 11 else m - 1)) := by
  unfold normDay
  rw [if_pos (by norm_num)]
  simp only [zero_add]
  exact normDay_of_range _ _ _ _ _ (hlen _ _) le_rfl

theorem normDay_carry (len : Int → Int → Int) (hlen : ∀ a b, 1 ≤ len a b)
    (f : Nat) (y m : Int) :
    normDay len (f + 1) y m (len y m + 1) =
      ((if m = 11 then y + 1 else y), (if m = 11 then 0 else m + 1), 1) := by
  unfold normDay
  rw [if_neg (by have := hlen y m; omega), if_pos (by omega)]
  rw [show len y m + 1 - len y m = 1 by ring]
  exact normDay_of_range _ _ _ _ _ le_rfl (hlen _ _)

theorem normYM_of_range (y m : Int) (h0 : 0 ≤ m) (h1 : m ≤ 11) :
    normYM y m = (y, m) := by
  unfold normYM
  rw [Prod.mk.injEq]
  omega

theorem mkBSDate_of_range (y m d : Int) (h0 : 0 ≤ m) (h1 : m ≤ 11)
    (h2 : 1 ≤ d) (h3 : d ≤ daysInBsMonth y m) : mkBSDate y m d = ⟨y, m, d⟩ := by
  unfold mkBSDate
  rw [normYM_of_range y m h0 h1]
  simp only [normDay_of_range _ _ _ _ _ h2 h3]

theorem mkGDate_of_range (y m d : Int) (h0 : 0 ≤ m) (h1 : m ≤ 11)
    (h2 : 1 ≤ d) (h3 : d ≤ gDaysInMonth y m) : mkGDate y m d = ⟨y, m, d⟩ := by
  unfold mkGDate
  rw [normYM_of_range y m h0 h1]
  simp only [normDay_of_range _ _ _ _ _ h2 h3]

theorem normYM_pred (y m : Int) :
    ((if (normYM y m).2 = 0 then (normYM y m).1 - 1 else (normYM y m).1),
      (if (normYM y m).2 = 0 then 11 else (normYM y m).2 - 1)) =
    normYM y (m - 1) := by
  unfold normYM
  rw [Prod.mk.injEq]
  constructor <;> split <;> omega

theorem bs_len_pos (y m : Int) : 1 ≤ daysInBsMonth y m := by
  have := bs_len_lb y m; omega

theorem g_len_pos (y m : Int) : 1 ≤ gDaysInMonth y m := by
  have := g_len_lb y m; omega

/-- Day-0 probe for the BS constructor: `new NepaliDate(y, m, 0)` is the
last day of the month preceding the normalized month `m`. -/
theorem mkBSDate_day_zero (y m : Int) :
    mkBSDate y m 0 =
      ⟨(normYM y (m - 1)).1, (normYM y (m - 1)).2,
        daysInBsMonth (normYM y (m - 1)).1 (normYM y (m - 1)).2⟩ := by
  unfold mkBSDate
  rw [show ((0 : Int).natAbs + 4) = 3 + 1 by norm_num]
  simp only [normDay_day_zero daysInBsMonth bs_len_pos]
  have h := normYM_pred y m
  rw [Prod.mk.injEq] at h
  rw [h.1, h.2]

/-- Day-0 probe for the Gregorian constructor. -/
theorem mkGDate_day_zero (y m : Int) :
    mkGDate y m 0 =
      ⟨(normYM y (m - 1)).1, (normYM y (m - 1)).2,
        gDaysInMonth (normYM y (m - 1)).1 (normYM y (m - 1)).2⟩ := by
  unfold mkGDate
  rw [show ((0 : Int).natAbs + 4) = 3 + 1 by norm_num]
  simp only [normDay_day_zero gDaysInMonth g_len_pos]
  have h := normYM_pred y m
  rw [Prod.mk.injEq] at h
  rw [h.1, h.2]

/-- `new Date(y, m, 1)` normalizes the month and keeps day 1. -/
theorem mkGDate_day_one (y m : Int) :
    mkGDate y m 1 = ⟨(normYM y m).1, (normYM y m).2, 1⟩ := by
  unfold mkGDate
  simp only [normDay_of_range _ _ _ _ _ le_rfl (g_len_pos _ _)]

/-- Overflow by exactly one day carries into the next month, day 1. -/
theorem mkGDate_carry (y m : Int) (h0 : 0 ≤ m) (h1 : m ≤ 11) :
    mkGDate y m (gDaysInMonth y m + 1) =
      ⟨(if m = 11 then y + 1 else y), (if m = 11 then 0 else m + 1), 1⟩ := by
  unfold mkGDate
  rw [normYM_of_range y m h0 h1]
  rw [show (gDaysInMonth y m + 1).natAbs + 4 =
      ((gDaysInMonth y m + 1).natAbs + 3) + 1 from rfl]
  simp only [normDay_carry gDaysInMonth g_len_pos]

/-- Overflow by exactly one day in the BS constructor. -/
theorem mkBSDate_carry (y m : Int) (h0 : 0 ≤ m) (h1 : m ≤ 11) :
    mkBSDate y m (daysInBsMonth y m + 1) =
      ⟨(if m = 11 then y + 1 else y), (if m = 11 then 0 else m + 1), 1⟩ := by
  unfold mkBSDate
  rw [normYM_of_range y m h0 h1]
  rw [show (daysInBsMonth y m + 1).natAbs + 4 =
      ((daysInBsMonth y m + 1).natAbs + 3) + 1 from rfl]
  simp only [normDay_carry daysInBsMonth bs_len_pos]

/-! ### The JavaScript month-normalization arithmetic -/

/-- The year adjustment of `handleMonthChange`'s if-chain equals the
uniform floor-division shift (for the month range 0..11 the shift is
zero, and `Math.floor` is `fdiv`, which for the positive divisor 12 is
Euclidean division). -/
theorem js_year_shift (y nm : Int) :
    (if nm > 11 then y + nm.fdiv 12
     else if nm < 0 then y + nm.fdiv 12 else y) = y + nm / 12 := by
  rw [Int.fdiv_eq_ediv _ (by norm_num)]
  split
  · rfl
  · split
    · rfl
    · omega

/-- The JavaScript `((nm % 12) + 12) % 12` pattern (truncating `%`)
equals the Euclidean remainder. -/
theorem js_wrap_mod (nm : Int) : ((nm.tmod 12) + 12).tmod 12 = nm % 12 := by
  rcases le_or_lt 0 nm with h | h
  · rw [Int.tmod_eq_emod h (by norm_num)]
    have h3 : 0 ≤ nm % 12 := Int.emod_nonneg _ (by norm_num)
    have h4 : nm % 12 < 12 := Int.emod_lt_of_pos _ (by norm_num)
    rw [Int.tmod_eq_emod (by omega) (by norm_num)]
    omega
  · have hc : 0 ≤ -nm := by omega
    have h1 : (-nm).tmod 12 = (-nm) % 12 := Int.tmod_eq_emod hc (by norm_num)
    have h2 : nm.tmod 12 = -((-nm).tmod 12) := by
      have := Int.tmod_add_tdiv nm 12
      have hn := Int.tmod_add_tdiv (-nm) 12
      have hdv : (-nm).tdiv 12 = -(nm.tdiv 12) := Int.neg_tdiv ..
      omega
    have h3 : 0 ≤ (-nm) % 12 := Int.emod_nonneg _ (by norm_num)
    have h4 : (-nm) % 12 < 12 := Int.emod_lt_of_pos _ (by norm_num)
    have h5 : 0 ≤ (nm.tmod 12) + 12 := by omega
    rw [Int.tmod_eq_emod h5 (by norm_num), h2, h1]
    omega

/-- The month branch of `handleMonthChange`'s if-chain equals the
Euclidean remainder. -/
theorem js_month_wrap (nm : Int) :
    (if nm > 11 then nm.tmod 12
     else if nm < 0 then ((nm.tmod 12) + 12).tmod 12 else nm) = nm % 12 := by
  split
  · exact Int.tmod_eq_emod (by omega) (by norm_num)
  · split
    · exact js_wrap_mod nm
    · omega

/-- Closed form of one `handleMonthChange` step: both anchors advance by
the uniform month normalization, and the stored day in each calendar is
the previous selected day (or 1) clamped to the new month's length. -/
theorem handleMonthChange_eq (lang : Lang) (sel : Option SelDate)
    (bY bM bD gY gM gD : Int) (op : Bool) (inc d : Int)
    (hdval : d = currentDayOf ⟨lang, sel, ⟨⟨bY, bM, bD⟩, ⟨gY, gM, gD⟩⟩, op⟩)
    (hd : 1 ≤ d) :
    handleMonthChange ⟨lang, sel, ⟨⟨bY, bM, bD⟩, ⟨gY, gM, gD⟩⟩, op⟩ inc =
      ⟨lang,
        some (match lang with
          | .np => .bs ⟨bY + (bM + inc) / 12, (bM + inc) % 12,
              min d (daysInBsMonth (bY + (bM + inc) / 12) ((bM + inc) % 12))⟩
          | .en => .ad ⟨gY + (gM + inc) / 12, (gM + inc) % 12,
              min d (gDaysInMonth (gY + (gM + inc) / 12) ((gM + inc) % 12))⟩),
        ⟨⟨bY + (bM + inc) / 12, (bM + inc) % 12,
            min d (daysInBsMonth (bY + (bM + inc) / 12) ((bM + inc) % 12))⟩,
          ⟨gY + (gM + inc) / 12, (gM + inc) % 12,
            min d (gDaysInMonth (gY + (gM + inc) / 12) ((gM + inc) % 12))⟩⟩,
        op⟩ := by
  have hbm0 : 0 ≤ (bM + inc) % 12 := Int.emod_nonneg _ (by norm_num)
  have hbm1 : (bM + inc) % 12 ≤ 11 := by
    have := Int.emod_lt_of_pos (bM + inc) (show (0 : Int) < 12 by norm_num)
    omega
  have hgm0 : 0 ≤ (gM + inc) % 12 := Int.emod_nonneg _ (by norm_num)
  have hgm1 : (gM + inc) % 12 ≤ 11 := by
    have := Int.emod_lt_of_pos (gM + inc) (show (0 : Int) < 12 by norm_num)
    omega
  unfold handleMonthChange
  simp only [js_year_shift, js_month_wrap, mkGDate_day_one, mkBSDate_day_zero,
    mkGDate_day_zero, normYM, add_sub_cancel_right]
  rw [← hdval]
  have e1 : (bM + inc) % 12 / 12 = 0 := by omega
  have e2 : (bM + inc) % 12 % 12 = (bM + inc) % 12 := by omega
  have e3 : (gM + inc) % 12 / 12 = 0 := by omega
  have e4 : (gM + inc) % 12 % 12 = (gM + inc) % 12 := by omega
  simp only [e1, e2, e3, e4, add_zero]
  simp only [mkBSDate_of_range _ _ _ hbm0 hbm1 (le_min hd (bs_len_pos _ _))
      (min_le_right _ _),
    mkGDate_of_range _ _ _ hgm0 hgm1 (le_min hd (g_len_pos _ _))
      (min_le_right _ _)]
  cases lang <;> rfl


/-! ### Claim theorems -/

theorem getOrdinalSuffix_mod (d : Int) (hd : 0 ≤ d) :
    getOrdinalSuffix d = getOrdinalSuffix (d % 100) := by
  have hm0 : 0 ≤ d % 100 := Int.emod_nonneg _ (by norm_num)
  have h1 : d.tmod 100 = d % 100 := Int.tmod_eq_emod hd (by norm_num)
  have h2 : (d % 100).tmod 100 = d % 100 := by
    rw [Int.tmod_eq_emod hm0 (by norm_num)]
    omega
  unfold getOrdinalSuffix
  simp only [h1, h2]

theorem ordinalSpec_mod (d : Int) :
    ordinalSpec d = ordinalSpec (d % 100) := by
  have h1 : d % 100 % 100 = d % 100 := by omega
  have h2 : d % 100 % 10 = d % 10 := by omega
  unfold ordinalSpec
  simp only [h1, h2]

/-- C9: for every day number d ≥ 1 the source's `getOrdinalSuffix`
agrees with the spec's rule (11/12/13 mod 100 give "th", otherwise by
the last digit: 1 "st", 2 "nd", 3 "rd", else "th"), and its result is
always one of the four suffixes. -/
theorem c9_ordinal_suffix (d : Int) (hd : 1 ≤ d) :
    getOrdinalSuffix d = ordinalSpec d ∧
    (getOrdinalSuffix d = "th" ∨ getOrdinalSuffix d = "st" ∨
     getOrdinalSuffix d = "nd" ∨ getOrdinalSuffix d = "rd") := by
  have key : ∀ n : Nat, n < 100 →
      (getOrdinalSuffix (n : Int) = ordinalSpec (n : Int) ∧
       (getOrdinalSuffix (n : Int) = "th" ∨ getOrdinalSuffix (n : Int) = "st" ∨
        getOrdinalSuffix (n : Int) = "nd" ∨
        getOrdinalSuffix (n : Int) = "rd")) := by
    decide
  have hm0 : 0 ≤ d % 100 := Int.emod_nonneg _ (by norm_num)
  have hm1 : d % 100 < 100 := Int.emod_lt_of_pos _ (by norm_num)
  have hcast : ((d % 100).toNat : Int) = d % 100 := Int.toNat_of_nonneg hm0
  have hk := key (d % 100).toNat (by omega)
  rw [hcast] at hk
  rw [getOrdinalSuffix_mod d (by omega), ordinalSpec_mod d]
  exact hk

/-- C9 witness: the theorem instantiated at day 23. -/
theorem c9_ordinal_suffix_witness :
    getOrdinalSuffix 23 = ordinalSpec 23 ∧
    (getOrdinalSuffix 23 = "th" ∨ getOrdinalSuffix 23 = "st" ∨
     getOrdinalSuffix 23 = "nd" ∨ getOrdinalSuffix 23 = "rd") :=
  c9_ordinal_suffix 23 (by norm_num)

/-- C10: formatting a null date returns the empty string for every
language and template, and a state with no selection renders an empty
input value. -/
theorem c10_null_formats_empty :
    (∀ (lang : Lang) (fmt : DateFormat), formatDate none lang fmt = "") ∧
    (∀ (st : State) (fmt : DateFormat), st.selectedDate = none →
      inputValue st fmt = "") := by
  constructor
  · intro lang fmt
    rfl
  · intro st fmt h
    unfold inputValue
    rw [h]

/-- C10 witness: a concrete empty-selection state renders "". -/
theorem c10_null_formats_empty_witness :
    formatDate none .np .yyyySlash = "" ∧
    inputValue ⟨.np, none, ⟨⟨2081, 8, 17⟩, ⟨2025, 0, 1⟩⟩, false⟩ .yyyySlash
      = "" :=
  ⟨c10_null_formats_empty.1 .np .yyyySlash,
   c10_null_formats_empty.2 ⟨.np, none, ⟨⟨2081, 8, 17⟩, ⟨2025, 0, 1⟩⟩, false⟩
     .yyyySlash rfl⟩

/-- C3 (code bug): after `init("2081-09-17", np)`, formatting the
selection with "YYYY/MM/DD" in np yields "२०८१/०८/१७" — the month field
is the 0-indexed month 8 transcoded, not the 1-indexed month 09 of the
input string and of the spec's expected output "२०८१/०९/१७"
(`formatNepaliDate`, unlike `formatGregorianDate`, never adds 1 to the
month before rendering the numeric templates). -/
theorem c3_np_numeric_month_is_zero_indexed :
    init (some "2081-09-17") .np =
      .ok ⟨.np, some (.bs ⟨2081, 8, 17⟩),
        ⟨⟨2081, 8, 17⟩, ⟨2025, 0, 1⟩⟩, false⟩ ∧
    formatDate (some (.bs ⟨2081, 8, 17⟩)) .np .yyyySlash = "२०८१/०८/१७" ∧
    "२०८१/०८/१७" ≠ "२०८१/०९/१७" := by
  refine ⟨rfl, rfl, by decide⟩

/-- C6: after an `advance`, the day stored in each calendar is
`min(d, daysInMonth)` for that calendar's new anchor month, where `d`
is the previously selected day (or 1 when nothing is selected); BS
lengths come from the oracle table and Gregorian lengths follow the
standard leap rule (the February conjunct); consequently the new day
never exceeds the new month's length. -/
theorem c6_advance_clamps (lang : Lang) (sel : Option SelDate)
    (bY bM bD gY gM gD : Int) (op : Bool) (inc : Int)
    (hd : 1 ≤ currentDayOf ⟨lang, sel, ⟨⟨bY, bM, bD⟩, ⟨gY, gM, gD⟩⟩, op⟩) :
    (handleMonthChange ⟨lang, sel, ⟨⟨bY, bM, bD⟩, ⟨gY, gM, gD⟩⟩, op⟩
        inc).currentMonth.nepali.day =
      min (currentDayOf ⟨lang, sel, ⟨⟨bY, bM, bD⟩, ⟨gY, gM, gD⟩⟩, op⟩)
        (daysInBsMonth
          (handleMonthChange ⟨lang, sel, ⟨⟨bY, bM, bD⟩, ⟨gY, gM, gD⟩⟩,
              op⟩ inc).currentMonth.nepali.year
          (handleMonthChange ⟨lang, sel, ⟨⟨bY, bM, bD⟩, ⟨gY, gM, gD⟩⟩,
              op⟩ inc).currentMonth.nepali.month) ∧
    (handleMonthChange ⟨lang, sel, ⟨⟨bY, bM, bD⟩, ⟨gY, gM, gD⟩⟩, op⟩
        inc).currentMonth.gregorian.day =
      min (currentDayOf ⟨lang, sel, ⟨⟨bY, bM, bD⟩, ⟨gY, gM, gD⟩⟩, op⟩)
        (gDaysInMonth
          (handleMonthChange ⟨lang, sel, ⟨⟨bY, bM, bD⟩, ⟨gY, gM, gD⟩⟩,
              op⟩ inc).currentMonth.gregorian.year
          (handleMonthChange ⟨lang, sel, ⟨⟨bY, bM, bD⟩, ⟨gY, gM, gD⟩⟩,
              op⟩ inc).currentMonth.gregorian.month) ∧
    (handleMonthChange ⟨lang, sel, ⟨⟨bY, bM, bD⟩, ⟨gY, gM, gD⟩⟩, op⟩
        inc).currentMonth.nepali.day ≤
      daysInBsMonth
        (handleMonthChange ⟨lang, sel, ⟨⟨bY, bM, bD⟩, ⟨gY, gM, gD⟩⟩,
            op⟩ inc).currentMonth.nepali.year
        (handleMonthChange ⟨lang, sel, ⟨⟨bY, bM, bD⟩, ⟨gY, gM, gD⟩⟩,
            op⟩ inc).currentMonth.nepali.month ∧
    (handleMonthChange ⟨lang, sel, ⟨⟨bY, bM, bD⟩, ⟨gY, gM, gD⟩⟩, op⟩
        inc).currentMonth.gregorian.day ≤
      gDaysInMonth
        (handleMonthChange ⟨lang, sel, ⟨⟨bY, bM, bD⟩, ⟨gY, gM, gD⟩⟩,
            op⟩ inc).currentMonth.gregorian.year
        (handleMonthChange ⟨lang, sel, ⟨⟨bY, bM, bD⟩, ⟨gY, gM, gD⟩⟩,
            op⟩ inc).currentMonth.gregorian.month ∧
    (∀ y : Int, gDaysInMonth y 1 = if isLeapYear y then 29 else 28) := by
  rw [handleMonthChange_eq lang sel bY bM bD gY gM gD op inc _ rfl hd]
  refine ⟨rfl, rfl, min_le_right _ _, min_le_right _ _, fun y => rfl⟩

/-- C6 witness: the theorem at a concrete state (Poush 2081 / January
2025, day 17 selected) advanced by one month. -/
theorem c6_advance_clamps_witness :
    (handleMonthChange ⟨.np, some (.bs ⟨2081, 8, 17⟩),
        ⟨⟨2081, 8, 17⟩, ⟨2025, 0, 1⟩⟩, false⟩ 1).currentMonth.nepali.day =
      min (currentDayOf ⟨.np, some (.bs ⟨2081, 8, 17⟩),
          ⟨⟨2081, 8, 17⟩, ⟨2025, 0, 1⟩⟩, false⟩)
        (daysInBsMonth
          (handleMonthChange ⟨.np, some (.bs ⟨2081, 8, 17⟩),
              ⟨⟨2081, 8, 17⟩, ⟨2025, 0, 1⟩⟩, false⟩ 1).currentMonth.nepali.year
          (handleMonthChange ⟨.np, some (.bs ⟨2081, 8, 17⟩),
              ⟨⟨2081, 8, 17⟩, ⟨2025, 0, 1⟩⟩, false⟩
              1).currentMonth.nepali.month) ∧
    (handleMonthChange ⟨.np, some (.bs ⟨2081, 8, 17⟩),
        ⟨⟨2081, 8, 17⟩, ⟨2025, 0, 1⟩⟩, false⟩ 1).currentMonth.gregorian.day =
      min (currentDayOf ⟨.np, some (.bs ⟨2081, 8, 17⟩),
          ⟨⟨2081, 8, 17⟩, ⟨2025, 0, 1⟩⟩, false⟩)
        (gDaysInMonth
          (handleMonthChange ⟨.np, some (.bs ⟨2081, 8, 17⟩),
              ⟨⟨2081, 8, 17⟩, ⟨2025, 0, 1⟩⟩, false⟩
              1).currentMonth.gregorian.year
          (handleMonthChange ⟨.np, some (.bs ⟨2081, 8, 17⟩),
              ⟨⟨2081, 8, 17⟩, ⟨2025, 0, 1⟩⟩, false⟩
              1).currentMonth.gregorian.month) ∧
    (handleMonthChange ⟨.np, some (.bs ⟨2081, 8, 17⟩),
        ⟨⟨2081, 8, 17⟩, ⟨2025, 0, 1⟩⟩, false⟩ 1).currentMonth.nepali.day ≤
      daysInBsMonth
        (handleMonthChange ⟨.np, some (.bs ⟨2081, 8, 17⟩),
            ⟨⟨2081, 8, 17⟩, ⟨2025, 0, 1⟩⟩, false⟩ 1).currentMonth.nepali.year
        (handleMonthChange ⟨.np, some (.bs ⟨2081, 8, 17⟩),
            ⟨⟨2081, 8, 17⟩, ⟨2025, 0, 1⟩⟩, false⟩
            1).currentMonth.nepali.month ∧
    (handleMonthChange ⟨.np, some (.bs ⟨2081, 8, 17⟩),
        ⟨⟨2081, 8, 17⟩, ⟨2025, 0, 1⟩⟩, false⟩ 1).currentMonth.gregorian.day ≤
      gDaysInMonth
        (handleMonthChange ⟨.np, some (.bs ⟨2081, 8, 17⟩),
            ⟨⟨2081, 8, 17⟩, ⟨2025, 0, 1⟩⟩,
            false⟩ 1).currentMonth.gregorian.year
        (handleMonthChange ⟨.np, some (.bs ⟨2081, 8, 17⟩),
            ⟨⟨2081, 8, 17⟩, ⟨2025, 0, 1⟩⟩,
            false⟩ 1).currentMonth.gregorian.month ∧
    (∀ y : Int, gDaysInMonth y 1 = if isLeapYear y then 29 else 28) :=
  c6_advance_clamps .np (some (.bs ⟨2081, 8, 17⟩)) 2081 8 17 2025 0 1 false 1
    (by decide)

/-- C7: `advance` is total in the delta and updates both anchors'
(year, month) exactly by the claimed normalization — year shifted by
`Math.floor((month + delta) / 12)` (`fdiv`) and month wrapped by the
JavaScript `((x % 12) + 12) % 12` pattern (`tmod`) — each calendar
advanced independently by the same rule. -/
theorem c7_advance_normalizes (lang : Lang) (sel : Option SelDate)
    (bY bM bD gY gM gD : Int) (op : Bool) (inc : Int)
    (hd : 1 ≤ currentDayOf ⟨lang, sel, ⟨⟨bY, bM, bD⟩, ⟨gY, gM, gD⟩⟩, op⟩) :
    (handleMonthChange ⟨lang, sel, ⟨⟨bY, bM, bD⟩, ⟨gY, gM, gD⟩⟩, op⟩
        inc).currentMonth.nepali.year = bY + (bM + inc).fdiv 12 ∧
    (handleMonthChange ⟨lang, sel, ⟨⟨bY, bM, bD⟩, ⟨gY, gM, gD⟩⟩, op⟩
        inc).currentMonth.nepali.month =
      (((bM + inc).tmod 12) + 12).tmod 12 ∧
    (handleMonthChange ⟨lang, sel, ⟨⟨bY, bM, bD⟩, ⟨gY, gM, gD⟩⟩, op⟩
        inc).currentMonth.gregorian.year = gY + (gM + inc).fdiv 12 ∧
    (handleMonthChange ⟨lang, sel, ⟨⟨bY, bM, bD⟩, ⟨gY, gM, gD⟩⟩, op⟩
        inc).currentMonth.gregorian.month =
      (((gM + inc).tmod 12) + 12).tmod 12 := by
  rw [handleMonthChange_eq lang sel bY bM bD gY gM gD op inc _ rfl hd]
  refine ⟨?_, ?_, ?_, ?_⟩
  · rw [Int.fdiv_eq_ediv _ (by norm_num)]
  · rw [js_wrap_mod]
  · rw [Int.fdiv_eq_ediv _ (by norm_num)]
  · rw [js_wrap_mod]

/-- C7 witness: the theorem at a concrete state with delta -14. -/
theorem c7_advance_normalizes_witness :
    (handleMonthChange ⟨.np, some (.bs ⟨2081, 8, 17⟩),
        ⟨⟨2081, 8, 17⟩, ⟨2025, 0, 1⟩⟩, false⟩
        (-14)).currentMonth.nepali.year = 2081 + ((8 : Int) + -14).fdiv 12 ∧
    (handleMonthChange ⟨.np, some (.bs ⟨2081, 8, 17⟩),
        ⟨⟨2081, 8, 17⟩, ⟨2025, 0, 1⟩⟩, false⟩
        (-14)).currentMonth.nepali.month =
      ((((8 : Int) + -14).tmod 12) + 12).tmod 12 ∧
    (handleMonthChange ⟨.np, some (.bs ⟨2081, 8, 17⟩),
        ⟨⟨2081, 8, 17⟩, ⟨2025, 0, 1⟩⟩, false⟩
        (-14)).currentMonth.gregorian.year = 2025 + ((0 : Int) + -14).fdiv 12 ∧
    (handleMonthChange ⟨.np, some (.bs ⟨2081, 8, 17⟩),
        ⟨⟨2081, 8, 17⟩, ⟨2025, 0, 1⟩⟩, false⟩
        (-14)).currentMonth.gregorian.month =
      ((((0 : Int) + -14).tmod 12) + 12).tmod 12 :=
  c7_advance_normalizes .np (some (.bs ⟨2081, 8, 17⟩)) 2081 8 17 2025 0 1 false
    (-14) (by decide)

/-- One `advance` step preserves well-formedness and shifts each
anchor's combined month index (12 * year + month) by exactly the
increment. -/
theorem handleMonthChange_step (st : State) (inc : Int) (hwf : WFState st) :
    WFState (handleMonthChange st inc) ∧
    12 * (handleMonthChange st inc).currentMonth.nepali.year +
        (handleMonthChange st inc).currentMonth.nepali.month =
      12 * st.currentMonth.nepali.year + st.currentMonth.nepali.month + inc ∧
    12 * (handleMonthChange st inc).currentMonth.gregorian.year +
        (handleMonthChange st inc).currentMonth.gregorian.month =
      12 * st.currentMonth.gregorian.year + st.currentMonth.gregorian.month +
        inc := by
  obtain ⟨lang, sel, ⟨⟨bY, bM, bD⟩, ⟨gY, gM, gD⟩⟩, op⟩ := st
  obtain ⟨h1, h2, h3, h4, h5⟩ := hwf
  rw [handleMonthChange_eq lang sel bY bM bD gY gM gD op inc _ rfl h5]
  dsimp only
  have hb := bs_len_pos (bY + (bM + inc) / 12) ((bM + inc) % 12)
  have hg := g_len_pos (gY + (gM + inc) / 12) ((gM + inc) % 12)
  refine ⟨?_, by omega, by omega⟩
  unfold WFState currentDayOf
  unfold currentDayOf at h5
  cases lang <;> dsimp only <;>
    exact ⟨by omega, by omega, by omega, by omega, by
      rw [le_min_iff]
      exact ⟨h5, by omega⟩⟩

/-- Folding a list of `advance` increments preserves well-formedness
and shifts each anchor's combined month index by the list's sum. -/
theorem foldl_advance (ds : List Int) : ∀ st : State, WFState st →
    WFState (ds.foldl handleMonthChange st) ∧
    12 * (ds.foldl handleMonthChange st).currentMonth.nepali.year +
        (ds.foldl handleMonthChange st).currentMonth.nepali.month =
      12 * st.currentMonth.nepali.year + st.currentMonth.nepali.month +
        ds.sum ∧
    12 * (ds.foldl handleMonthChange st).currentMonth.gregorian.year +
        (ds.foldl handleMonthChange st).currentMonth.gregorian.month =
      12 * st.currentMonth.gregorian.year + st.currentMonth.gregorian.month +
        ds.sum := by
  induction ds with
  | nil =>
    intro st h
    refine ⟨h, by simp, by simp⟩
  | cons i t ih =>
    intro st h
    have hs := handleMonthChange_step st i h
    have ht := ih (handleMonthChange st i) hs.1
    simp only [List.foldl_cons, List.sum_cons]
    obtain ⟨hw, hb, hg⟩ := ht
    refine ⟨hw, by omega, by omega⟩

/-- C8: a finite sequence of `advance` calls whose increments sum to 0
returns both anchors to their original year and month. -/
theorem c8_sum_zero_round_trip (st : State) (ds : List Int)
    (hwf : WFState st) (hsum : ds.sum = 0) :
    (ds.foldl handleMonthChange st).currentMonth.nepali.year =
      st.currentMonth.nepali.year ∧
    (ds.foldl handleMonthChange st).currentMonth.nepali.month =
      st.currentMonth.nepali.month ∧
    (ds.foldl handleMonthChange st).currentMonth.gregorian.year =
      st.currentMonth.gregorian.year ∧
    (ds.foldl handleMonthChange st).currentMonth.gregorian.month =
      st.currentMonth.gregorian.month := by
  obtain ⟨hw2, hb, hg⟩ := foldl_advance ds st hwf
  obtain ⟨a1, a2, a3, a4, _⟩ := hwf
  obtain ⟨b1, b2, b3, b4, _⟩ := hw2
  rw [hsum] at hb hg
  refine ⟨by omega, by omega, by omega, by omega⟩

/-- C8 witness: the theorem at a concrete state with the increment
sequence [3, -14, 11], whose sum is 0. -/
theorem c8_sum_zero_round_trip_witness :
    (([3, -14, 11] : List Int).foldl handleMonthChange
        ⟨.np, some (.bs ⟨2081, 8, 17⟩), ⟨⟨2081, 8, 17⟩, ⟨2025, 0, 1⟩⟩,
          false⟩).currentMonth.nepali.year = 2081 ∧
    (([3, -14, 11] : List Int).foldl handleMonthChange
        ⟨.np, some (.bs ⟨2081, 8, 17⟩), ⟨⟨2081, 8, 17⟩, ⟨2025, 0, 1⟩⟩,
          false⟩).currentMonth.nepali.month = 8 ∧
    (([3, -14, 11] : List Int).foldl handleMonthChange
        ⟨.np, some (.bs ⟨2081, 8, 17⟩), ⟨⟨2081, 8, 17⟩, ⟨2025, 0, 1⟩⟩,
          false⟩).currentMonth.gregorian.year = 2025 ∧
    (([3, -14, 11] : List Int).foldl handleMonthChange
        ⟨.np, some (.bs ⟨2081, 8, 17⟩), ⟨⟨2081, 8, 17⟩, ⟨2025, 0, 1⟩⟩,
          false⟩).currentMonth.gregorian.month = 0 :=
  c8_sum_zero_round_trip
    ⟨.np, some (.bs ⟨2081, 8, 17⟩), ⟨⟨2081, 8, 17⟩, ⟨2025, 0, 1⟩⟩, false⟩
    [3, -14, 11] (by decide) (by decide)

/-- C4 counterexample: with the January 2025 anchor (31 days),
`handleDateSelect` called with day 32 does not fail and does not leave
the cursor unchanged — the `Date` constructor normalizes the overflow
to February 1, 2025 and the selection is updated to it. -/
theorem c4_counterexample :
    init (some "2025-01-01") .en =
      .ok ⟨.en, some (.ad ⟨2025, 0, 1⟩), ⟨⟨2081, 8, 17⟩, ⟨2025, 0, 1⟩⟩,
        false⟩ ∧
    gDaysInMonth 2025 0 = 31 ∧
    (handleDateSelect .yyyySlash
        ⟨.en, some (.ad ⟨2025, 0, 1⟩), ⟨⟨2081, 8, 17⟩, ⟨2025, 0, 1⟩⟩, false⟩
        32).newState.selectedDate = some (.ad ⟨2025, 1, 1⟩) ∧
    some (SelDate.ad ⟨2025, 1, 1⟩) ≠
      (⟨.en, some (.ad ⟨2025, 0, 1⟩), ⟨⟨2081, 8, 17⟩, ⟨2025, 0, 1⟩⟩, false⟩ :
        State).selectedDate := by
  refine ⟨rfl, rfl, rfl, by decide⟩

/-- C4 (amended): `handleDateSelect` performs no range validation and
has no failure path: for every day number it stores the
constructor-normalized date built from each calendar's anchor; a day
equal to the anchor month's length yields exactly that day, while
length + 1 silently becomes day 1 of the following month and the
selection does change. -/
theorem c4_amended (fmt : DateFormat) (lang : Lang) (sel : Option SelDate)
    (bY bM bD gY gM gD : Int) (op : Bool)
    (hbm0 : 0 ≤ bM) (hbm1 : bM ≤ 11) (hgm0 : 0 ≤ gM) (hgm1 : gM ≤ 11) :
    (∀ d : Int,
      (handleDateSelect fmt ⟨lang, sel, ⟨⟨bY, bM, bD⟩, ⟨gY, gM, gD⟩⟩, op⟩
          d).newState.selectedDate =
        some (match lang with
          | .np => .bs (mkBSDate bY bM d)
          | .en => .ad (mkGDate gY gM d))) ∧
    (∀ d : Int, 1 ≤ d → d ≤ gDaysInMonth gY gM →
      mkGDate gY gM d = ⟨gY, gM, d⟩) ∧
    mkGDate gY gM (gDaysInMonth gY gM + 1) =
      ⟨if gM = 11 then gY + 1 else gY, if gM = 11 then 0 else gM + 1, 1⟩ ∧
    (∀ d : Int, 1 ≤ d → d ≤ daysInBsMonth bY bM →
      mkBSDate bY bM d = ⟨bY, bM, d⟩) ∧
    mkBSDate bY bM (daysInBsMonth bY bM + 1) =
      ⟨if bM = 11 then bY + 1 else bY, if bM = 11 then 0 else bM + 1, 1⟩ := by
  refine ⟨?_, ?_, mkGDate_carry gY gM hgm0 hgm1, ?_,
    mkBSDate_carry bY bM hbm0 hbm1⟩
  · intro d
    cases lang <;> rfl
  · intro d hd1 hd2
    exact mkGDate_of_range gY gM d hgm0 hgm1 hd1 hd2
  · intro d hd1 hd2
    exact mkBSDate_of_range bY bM d hbm0 hbm1 hd1 hd2

/-- C4 witness: the amended theorem at the January 2025 anchor state. -/
theorem c4_amended_witness :
    (∀ d : Int,
      (handleDateSelect .yyyySlash
          ⟨.en, some (.ad ⟨2025, 0, 1⟩),
            ⟨⟨2081, 8, 17⟩, ⟨2025, 0, 1⟩⟩, false⟩ d).newState.selectedDate =
        some (match Lang.en with
          | .np => .bs (mkBSDate 2081 8 d)
          | .en => .ad (mkGDate 2025 0 d))) ∧
    (∀ d : Int, 1 ≤ d → d ≤ gDaysInMonth 2025 0 →
      mkGDate 2025 0 d = ⟨2025, 0, d⟩) ∧
    mkGDate 2025 0 (gDaysInMonth 2025 0 + 1) =
      ⟨if (0 : Int) = 11 then 2025 + 1 else 2025,
        if (0 : Int) = 11 then 0 else 0 + 1, 1⟩ ∧
    (∀ d : Int, 1 ≤ d → d ≤ daysInBsMonth 2081 8 →
      mkBSDate 2081 8 d = ⟨2081, 8, d⟩) ∧
    mkBSDate 2081 8 (daysInBsMonth 2081 8 + 1) =
      ⟨if (8 : Int) = 11 then 2081 + 1 else 2081,
        if (8 : Int) = 11 then 0 else 8 + 1, 1⟩ :=
  c4_amended .yyyySlash .en (some (.ad ⟨2025, 0, 1⟩)) 2081 8 17 2025 0 1 false
    (by norm_num) (by norm_num) (by norm_num) (by norm_num)

/-- C1 counterexample: after `init("2081-09-17", np)`, selecting day 17
reports the English date 2025/01/17, but the oracle conversion of the
selected BS day (2081-08-17, 0-indexed) is 2025-01-01 — the reported
pair does not denote the same calendar day, because the AD side pairs
the BS day number with the AD anchor's own year/month. -/
theorem c1_counterexample :
    init (some "2081-09-17") .np =
      .ok ⟨.np, some (.bs ⟨2081, 8, 17⟩), ⟨⟨2081, 8, 17⟩, ⟨2025, 0, 1⟩⟩,
        false⟩ ∧
    (handleDateSelect .yyyySlash
        ⟨.np, some (.bs ⟨2081, 8, 17⟩), ⟨⟨2081, 8, 17⟩, ⟨2025, 0, 1⟩⟩, false⟩
        17).onDateChange = ⟨"2025/01/17", "२०८१/०८/१७"⟩ ∧
    bsToAd ⟨2081, 8, 17⟩ = ⟨2025, 0, 1⟩ ∧
    formatDate (some (.ad ⟨2025, 0, 1⟩)) .en .yyyySlash = "2025/01/01" ∧
    "2025/01/17" ≠ "2025/01/01" := by
  refine ⟨rfl, rfl, rfl, rfl, by decide⟩

/-- C1 (amended): `init` does establish the oracle relation between the
two anchors (for np, the stored Gregorian anchor is the conversion of
the parsed BS date); but `handleDateSelect` builds each calendar's
reported date by pairing the clicked day number with that calendar's
own anchor year/month — the two payload dates are not related through
the oracle (selecting Poush 17, 2081 reports 2025/01/17, not the true
2025/01/01). -/
theorem c1_amended (fmt : DateFormat) (lang : Lang) (sel : Option SelDate)
    (cm : CurrentMonth) (op : Bool) (d : Int) (v : String) (st0 : State)
    (hinit : init (some v) .np = .ok st0) :
    st0.currentMonth.gregorian = bsToAd st0.currentMonth.nepali ∧
    (handleDateSelect fmt ⟨lang, sel, cm, op⟩ d).onDateChange.english =
      formatDate (some (.ad (mkGDate cm.gregorian.year cm.gregorian.month d)))
        .en fmt ∧
    (handleDateSelect fmt ⟨lang, sel, cm, op⟩ d).onDateChange.nepali =
      formatDate (some (.bs (mkBSDate cm.nepali.year cm.nepali.month d)))
        .np fmt := by
  refine ⟨?_, rfl, rfl⟩
  cases hp : parseNepaliDateString v with
  | error e =>
    simp only [init, hp, bind, Monad.toBind, Except.instMonad,
      Except.bind] at hinit
    exact Except.noConfusion hinit
  | ok nd =>
    simp only [init, hp, bind, Monad.toBind, Except.instMonad,
      Except.bind, Except.ok.injEq] at hinit
    rw [← hinit]

/-- C1 witness: the amended theorem at the repository's example value. -/
theorem c1_amended_witness :
    (⟨.np, some (.bs ⟨2081, 8, 17⟩), ⟨⟨2081, 8, 17⟩, ⟨2025, 0, 1⟩⟩, false⟩ :
        State).currentMonth.gregorian =
      bsToAd (⟨.np, some (.bs ⟨2081, 8, 17⟩),
        ⟨⟨2081, 8, 17⟩, ⟨2025, 0, 1⟩⟩, false⟩ :
          State).currentMonth.nepali ∧
    (handleDateSelect .yyyySlash
        ⟨.np, some (.bs ⟨2081, 8, 17⟩), ⟨⟨2081, 8, 17⟩, ⟨2025, 0, 1⟩⟩, false⟩
        17).onDateChange.english =
      formatDate (some (.ad (mkGDate 2025 0 17))) .en .yyyySlash ∧
    (handleDateSelect .yyyySlash
        ⟨.np, some (.bs ⟨2081, 8, 17⟩), ⟨⟨2081, 8, 17⟩, ⟨2025, 0, 1⟩⟩, false⟩
        17).onDateChange.nepali =
      formatDate (some (.bs (mkBSDate 2081 8 17))) .np .yyyySlash :=
  c1_amended .yyyySlash .np (some (.bs ⟨2081, 8, 17⟩))
    ⟨⟨2081, 8, 17⟩, ⟨2025, 0, 1⟩⟩ false 17 "2081-09-17"
    ⟨.np, some (.bs ⟨2081, 8, 17⟩), ⟨⟨2081, 8, 17⟩, ⟨2025, 0, 1⟩⟩, false⟩ rfl

/-- C2 counterexample: after `init("2025-01-20", en)` the independently
tracked BS anchor is Magh (month 9), so the header's BS label for
January 2025 reads "माघ/फागुन", whereas the claimed rule — converting
January 1 and January 31, 2025 through the oracle — yields
"पौष/माघ". -/
theorem c2_counterexample :
    init (some "2025-01-20") .en =
      .ok ⟨.en, some (.ad ⟨2025, 0, 20⟩), ⟨⟨2081, 9, 7⟩, ⟨2025, 0, 20⟩⟩,
        false⟩ ∧
    getNepaliMonthRange ⟨2081, 9, 7⟩ = "माघ/फागुन" ∧
    nepaliMonthRangeSpec 2025 0 = "पौष/माघ" ∧
    "माघ/फागुन" ≠ "पौष/माघ" := by
  refine ⟨rfl, rfl, rfl, by decide⟩

/-- C2 (amended): for a BS anchor the Gregorian month and year labels
follow the claimed rule (convert the anchor month's first and last
concrete day through the oracle, join with "/" or "-"); but for an AD
anchor the BS label is computed from the independently tracked BS
anchor alone — it names BS months m and m+1 of that anchor and never
converts any Gregorian day. -/
theorem c2_amended (b : BSDate) (h0 : 0 ≤ b.month) (h1 : b.month ≤ 11) :
    getGregorianMonthRange b = gregorianMonthRangeSpec b.year b.month ∧
    getGregorianYearRange b = gregorianYearRangeSpec b.year b.month ∧
    getNepaliMonthRange b =
      (let a := MONTH_NAMES_np.getD b.month.toNat "undefined"
       let c := MONTH_NAMES_np.getD ((b.month + 1) % 12).toNat "undefined"
       if a = c then a else s!"{a}/{c}") := by
  obtain ⟨y, m, dd⟩ := b
  dsimp only at h0 h1 ⊢
  have hfirst : mkBSDate y m 1 = ⟨y, m, 1⟩ :=
    mkBSDate_of_range y m 1 h0 h1 le_rfl (bs_len_pos y m)
  have hlast : mkBSDate y (m + 1) 0 = ⟨y, m, daysInBsMonth y m⟩ := by
    rw [mkBSDate_day_zero, add_sub_cancel_right, normYM_of_range y m h0 h1]
  have hlast2 : mkBSDate y (m + 2) 0 =
      ⟨y + (m + 1) / 12, (m + 1) % 12,
        daysInBsMonth (y + (m + 1) / 12) ((m + 1) % 12)⟩ := by
    rw [mkBSDate_day_zero, show (m + 2 : Int) - 1 = m + 1 by ring]
    rfl
  unfold getGregorianMonthRange getGregorianYearRange getNepaliMonthRange
    gregorianMonthRangeSpec gregorianYearRangeSpec
  rw [hfirst, hlast, hlast2]
  exact ⟨rfl, rfl, rfl⟩

/-- C2 witness: the amended theorem at the Poush 2081 anchor. -/
theorem c2_amended_witness :
    getGregorianMonthRange ⟨2081, 8, 17⟩ = gregorianMonthRangeSpec 2081 8 ∧
    getGregorianYearRange ⟨2081, 8, 17⟩ = gregorianYearRangeSpec 2081 8 ∧
    getNepaliMonthRange ⟨2081, 8, 17⟩ =
      (let a := MONTH_NAMES_np.getD (8 : Int).toNat "undefined"
       let c := MONTH_NAMES_np.getD (((8 : Int) + 1) % 12).toNat "undefined"
       if a = c then a else s!"{a}/{c}") :=
  c2_amended ⟨2081, 8, 17⟩ (by norm_num) (by norm_num)

/-- The modelled BS string parser only ever raises the invalid-string
error. -/
theorem parse_err_is_invalid (v : String) (e : InitError)
    (hp : parseNepaliDateString v = .error e) : e = .invalidDateString := by
  unfold parseNepaliDateString at hp
  split at hp
  · split at hp
    · exact Except.noConfusion hp
    · exact (Except.error.inj hp).symm
  · exact (Except.error.inj hp).symm

/-- C5 counterexample: "2025-02-29" is not a valid Gregorian date (2025
is not a leap year), so for language en it is in the claim's scope; yet
it parses as a valid BS triple, so construction fails at line 110 —
`new NepaliDate(invalidJsDate)` — with the oracle's UnsupportedEra
error rather than the claimed InvalidDateString. -/
theorem c5_counterexample :
    jsDateParse "2025-02-29" = none ∧
    parseNepaliDateString "2025-02-29" = .ok ⟨2025, 1, 29⟩ ∧
    init (some "2025-02-29") .en = .error .unsupportedEra ∧
    (Except.error InitError.unsupportedEra : Except InitError State) ≠
      .error .invalidDateString :=
  ⟨rfl, rfl, rfl, fun h => InitError.noConfusion (Except.error.inj h)⟩

/-- C5 (amended): a default value that does not parse as three in-range
integers always makes construction fail, surfaced to the caller, with
no silent fallback to "now" and no invalid-date cursor; for np the
failure is InvalidDateString from the BS parser (line 96), and for en
it is InvalidDateString exactly when the value also fails the BS parse
that line 106 runs for both languages — an en value that is an invalid
Gregorian date but a well-formed BS triple instead fails with the
oracle's UnsupportedEra when line 110 feeds it the invalid JavaScript
date. -/
theorem c5_amended :
    (∀ (v : String) (e0 : InitError), parseNepaliDateString v = .error e0 →
      init (some v) .np = .error .invalidDateString) ∧
    (∀ v : String, jsDateParse v = none →
      ∃ e, init (some v) .en = .error e) ∧
    (∀ (v : String) (e1 : InitError), jsDateParse v = none →
      parseNepaliDateString v = .error e1 →
      init (some v) .en = .error .invalidDateString) ∧
    (∀ (v : String) (nd : BSDate), jsDateParse v = none →
      parseNepaliDateString v = .ok nd →
      init (some v) .en = .error .unsupportedEra) := by
  refine ⟨?_, ?_, ?_, ?_⟩
  · intro v e0 hp
    have he := parse_err_is_invalid v e0 hp
    subst he
    simp only [init, hp, bind, Monad.toBind, Except.instMonad, Except.bind]
  · intro v hp
    cases hq : parseNepaliDateString v with
    | error e =>
      refine ⟨e, ?_⟩
      simp only [init, hq, bind, Monad.toBind, Except.instMonad, Except.bind]
    | ok nd =>
      refine ⟨.unsupportedEra, ?_⟩
      simp only [init, hq, hp, bind, Monad.toBind, Except.instMonad,
        Except.bind, nepaliFromJsDate]
  · intro v e1 hp hq
    have he := parse_err_is_invalid v e1 hq
    subst he
    simp only [init, hq, bind, Monad.toBind, Except.instMonad, Except.bind]
  · intro v nd hp hq
    simp only [init, hq, hp, bind, Monad.toBind, Except.instMonad,
      Except.bind, nepaliFromJsDate]

/-- C5 witness: the amended theorem at "not-a-date" (both languages,
InvalidDateString) and at "2025-02-29" (en, UnsupportedEra). -/
theorem c5_amended_witness :
    init (some "not-a-date") .np = .error .invalidDateString ∧
    (∃ e, init (some "not-a-date") .en = .error e) ∧
    init (some "not-a-date") .en = .error .invalidDateString ∧
    init (some "2025-02-29") .en = .error .unsupportedEra :=
  ⟨c5_amended.1 "not-a-date" .invalidDateString rfl,
   c5_amended.2.1 "not-a-date" rfl,
   c5_amended.2.2.1 "not-a-date" .invalidDateString rfl rfl,
   c5_amended.2.2.2 "2025-02-29" ⟨2025, 1, 29⟩ rfl rfl⟩
